import Mathlib

/-!
A shallow embedding of the `still-practice-serise-may-a-healthy-struct-for-wgpu`
demo (files `src/main.rs` and `src/GpuFatory.rs`), together with theorems
settling the specification's claims about it.

Modelling conventions:
* Machine scalars: `u32` dimensions become `Nat`; the `f32` camera scalars
  become `ℚ` (the demo only ever exercises exactly representable values in the
  properties proved here, and no claim depends on rounding).
* GPU handles (device, queue, surface, window) carry no observable state of
  their own; the calls made on them are recorded as explicit effect counts or
  command lists, so that "submits no GPU work" and "records one render pass"
  are statements about data.
* The `camera` module (`Camera`, `CameraController`, `CameraUniform`) is
  declared in `main.rs` (`mod camera`) but its file is not part of the source
  tree; those definitions are modelled from the spec, and each such definition
  says so in its doc comment.
-/

/-- A 3-component vector over `ℚ`, standing for the `f32` vectors of the
math library used by the camera code. -/
structure Vec3 where
  x : ℚ
  y : ℚ
  z : ℚ
deriving DecidableEq

instance : Add Vec3 := ⟨fun a b => ⟨a.x + b.x, a.y + b.y, a.z + b.z⟩⟩

instance : Sub Vec3 := ⟨fun a b => ⟨a.x - b.x, a.y - b.y, a.z - b.z⟩⟩

instance : SMul ℚ Vec3 := ⟨fun q v => ⟨q * v.x, q * v.y, q * v.z⟩⟩

def Vec3.dot (a b : Vec3) : ℚ := a.x * b.x + a.y * b.y + a.z * b.z

def Vec3.cross (a b : Vec3) : Vec3 :=
  ⟨a.y * b.z - a.z * b.y, a.z * b.x - a.x * b.z, a.x * b.y - a.y * b.x⟩

/-- The exact natural square root, when it exists (searched structurally so
that it evaluates inside the kernel). -/
def exactNatSqrt (n : Nat) : Option Nat :=
  (List.range (n + 1)).find? (fun k => k * k == n)

/-- Modelled from the spec: vector normalization and distances in the camera
controller use a square root. Over `ℚ` we take the exact square root when the
radicand is a perfect square (every concrete input evaluated in this
development is), and `0` otherwise; no claim depends on the inexact branch. -/
def ratSqrt (q : ℚ) : ℚ :=
  if q ≤ 0 then 0
  else
    match exactNatSqrt q.num.toNat, exactNatSqrt q.den with
    | some a, some b => (a : ℚ) / (b : ℚ)
    | _, _ => 0

def Vec3.mag (v : Vec3) : ℚ := ratSqrt (v.dot v)

def Vec3.normalized (v : Vec3) : Vec3 :=
  if v.mag = 0 then v else (1 / v.mag) • v

/-- Modelled from the spec (the `camera` module's file is missing from the
source tree; the field list is visible at the construction sites in
`main.rs` and `GpuFatory.rs`): eye/target/up vectors plus projection
parameters. -/
structure Camera where
  eye : Vec3
  target : Vec3
  up : Vec3
  aspect : ℚ
  fovy : ℚ
  znear : ℚ
  zfar : ℚ
deriving DecidableEq

/-- Modelled from the spec: the 4×4 view-projection matrix is a pure function
of the camera (a look-at view transform composed with a perspective
projection). Its floating-point entries are not exactly embeddable, so a
matrix is represented by the camera data defining it. This is faithful for
every comparison made in this development: equal cameras give equal matrices
(the computation is a pure function of `Camera`), and the two distinct
cameras ever compared differ in eye position, which the look-at view matrix
determines (its inverse maps the origin to the eye), so their matrices
differ. -/
inductive ViewProj
  | identity
  | ofCamera (c : Camera)
deriving DecidableEq

/-- Modelled from the spec: `compute_view_projection` builds the
view-projection matrix from the current camera state; pure, no error
conditions. -/
def Camera.compute_view_projection (c : Camera) : ViewProj := ViewProj.ofCamera c

/-- Modelled from the spec: the CPU-side camera uniform record holding the
4×4 view-projection matrix. -/
structure CameraUniform where
  view_proj : ViewProj
deriving DecidableEq

/-- Modelled from the spec: a fresh camera uniform before the first
recompute. -/
def CameraUniform.new : CameraUniform := ⟨ViewProj.identity⟩

/-- Modelled from the spec: recompute the stored view-projection matrix from
the given camera (CPU-side only; this function has no access to any GPU
queue or buffer). -/
def CameraUniform.update_view_proj (u : CameraUniform) (camera : Camera) : CameraUniform :=
  { u with view_proj := camera.compute_view_projection }

/-- Physical key identity as seen by the controller: the four recognized
movement keys, and anything else. -/
inductive PhysicalKeyCode
  | KeyW
  | KeyA
  | KeyS
  | KeyD
  | Other (code : Nat)
deriving DecidableEq

inductive ElementState
  | Pressed
  | Released
deriving DecidableEq

/-- A keyboard event as delivered to the controller: physical key plus
press/release state. -/
structure KeyEvent where
  physical_key : PhysicalKeyCode
  state : ElementState
deriving DecidableEq

/-- Modelled from the spec: the camera controller's state — four independent
movement flags and a fixed speed scalar. -/
structure CameraController where
  speed : ℚ
  is_forward_pressed : Bool
  is_backward_pressed : Bool
  is_left_pressed : Bool
  is_right_pressed : Bool
deriving DecidableEq

def CameraController.new (speed : ℚ) : CameraController :=
  ⟨speed, false, false, false, false⟩

/-- Modelled from the spec: a key-press event for a recognized key sets the
corresponding flag `true` and reports handled; a key-release for a recognized
key sets it `false` and reports handled; any other key reports unhandled and
leaves the state unchanged. -/
def CameraController.process_events (c : CameraController) (e : KeyEvent) :
    CameraController × Bool :=
  let pressed : Bool :=
    match e.state with
    | ElementState.Pressed => true
    | ElementState.Released => false
  match e.physical_key with
  | PhysicalKeyCode.KeyW => ({ c with is_forward_pressed := pressed }, true)
  | PhysicalKeyCode.KeyA => ({ c with is_left_pressed := pressed }, true)
  | PhysicalKeyCode.KeyS => ({ c with is_backward_pressed := pressed }, true)
  | PhysicalKeyCode.KeyD => ({ c with is_right_pressed := pressed }, true)
  | PhysicalKeyCode.Other _ => (c, false)

/-- Modelled from the spec: each update step computes the forward vector
(target − eye, normalized); if the forward flag is set and the distance to
the target exceeds the per-step movement amount, moves the eye along forward
by the speed; mirror logic for backward (negative direction, moving away
needs no overshoot guard) and left/right along the right vector (cross of
forward and up), re-deriving up via a cross product after strafing. The
displacement is a constant per call (movement coupled to event rate; no
delta-time). -/
def CameraController.update_camera (ctl : CameraController) (camera : Camera) : Camera :=
  let forward := camera.target - camera.eye
  let forward_norm := forward.normalized
  let forward_mag := forward.mag
  let c1 :=
    if ctl.is_forward_pressed ∧ ctl.speed < forward_mag then
      { camera with eye := camera.eye + ctl.speed • forward_norm }
    else camera
  let c2 :=
    if ctl.is_backward_pressed then
      { c1 with eye := c1.eye - ctl.speed • forward_norm }
    else c1
  let right := (forward_norm.cross camera.up).normalized
  let c3 :=
    if ctl.is_right_pressed then
      { c2 with eye := c2.eye + ctl.speed • right,
                up := (right.cross forward_norm).normalized }
    else c2
  let c4 :=
    if ctl.is_left_pressed then
      { c3 with eye := c3.eye - ctl.speed • right,
                up := (right.cross forward_norm).normalized }
    else c3
  c4

/-! ## wgpu-side model types -/

/-- Surface pixel formats (the ones relevant to this development). -/
inductive TextureFormat
  | Bgra8UnormSrgb
  | Rgba8UnormSrgb
  | Rgba8Unorm
deriving DecidableEq

/-- The negotiated surface configuration stored by the driver: dimensions in
pixels (`u32` in the source) and the surface pixel format. -/
structure SurfaceConfiguration where
  width : Nat
  height : Nat
  format : TextureFormat
deriving DecidableEq

/-- The two bind groups the factory creates, named by role: the screen-size
uniform group (layout/group #0) and the camera uniform group (#1). -/
inductive BindGroupId
  | screenSize
  | camera
deriving DecidableEq

inductive PrimitiveTopologyM
  | TriangleList
  | TriangleStrip
  | PointList
deriving DecidableEq

inductive FrontFaceM
  | Ccw
  | Cw
deriving DecidableEq

inductive PolygonModeM
  | Fill
  | Line
  | Point
deriving DecidableEq

/-- Primitive state of a render pipeline; the fields not set by the source
take wgpu's defaults. -/
structure PrimitiveStateM where
  topology : PrimitiveTopologyM
  front_face : FrontFaceM
  polygon_mode : PolygonModeM
  cull_mode : Option Unit
deriving DecidableEq

/-- One color target of the fragment stage: pixel format, optional blend
state (`none` = no blending) and the write mask (15 = all channels). -/
structure ColorTargetStateM where
  format : TextureFormat
  blend : Option Unit
  write_mask : Nat
deriving DecidableEq

structure VertexStateM where
  entry_point : String
  buffers : List Unit
deriving DecidableEq

structure FragmentStateM where
  entry_point : String
  targets : List (Option ColorTargetStateM)
deriving DecidableEq

/-- The render pipeline descriptor as handed to `create_render_pipeline`:
pipeline layout (the bind group layouts in slot order), vertex stage,
primitive state, fragment stage, and depth/stencil state. -/
structure RenderPipelineDesc where
  layout : List BindGroupId
  vertex : VertexStateM
  primitive : PrimitiveStateM
  fragment : Option FragmentStateM
  depth_stencil : Option Unit
deriving DecidableEq

/-- Record `TheFirstUniformBuffer` of `GpuFatory.rs`: the screen-size uniform
record, two `u32` fields. -/
structure TheFirstUniformBuffer where
  width : Nat
  height : Nat
deriving DecidableEq

/-- An acquired surface frame (an opaque handle; the id ties the render
pass's color attachment to the frame it draws into). -/
structure Frame where
  id : Nat
deriving DecidableEq

/-- An RGBA clear color with `ℚ` channels. `wgpu::Color::BLACK` is
(0,0,0,1). -/
structure ColorV where
  r : ℚ
  g : ℚ
  b : ℚ
  a : ℚ
deriving DecidableEq

def ColorV.BLACK : ColorV := ⟨0, 0, 0, 1⟩

inductive LoadOpM
  | Clear (c : ColorV)
  | Load
deriving DecidableEq

inductive StoreOpM
  | Store
  | Discard
deriving DecidableEq

/-- Commands recorded into a render pass. Vertex/index-buffer binding
constructors exist so that their absence from a recorded pass is a statement
about data, not about the model's vocabulary. -/
inductive RenderCmd
  | setPipeline (idx : Nat)
  | setBindGroup (slot : Nat) (group : BindGroupId)
  | setVertexBuffer (slot : Nat) (idx : Nat)
  | setIndexBuffer (idx : Nat)
  | draw (vertexStart vertexEnd instanceStart instanceEnd : Nat)
deriving DecidableEq

/-- One recorded render pass: its single color attachment's load/store ops,
the frame it targets, and the commands recorded into it. -/
structure RenderPassDesc where
  colorLoad : LoadOpM
  colorStore : StoreOpM
  frameId : Nat
  cmds : List RenderCmd
deriving DecidableEq

/-- The observable outcome of a successful `render` call. -/
structure RenderResult where
  passes : List RenderPassDesc
  submittedBuffers : Nat
  presented : Bool
deriving DecidableEq

/-- The ways the embedded code can `unwrap()` a failure and abort the
process. -/
inductive Panic
  | acquireUnwrap
  | factoryUnwrapNone
deriving DecidableEq

/-- Structure `GpuFactory` of `GpuFatory.rs`: cached GPU objects plus the CPU-side
camera uniform. Buffers are modelled by their contents; pipelines by their
descriptors; bind groups by their role ids. -/
structure GpuFactory where
  bind_group : List BindGroupId
  pipeline : List RenderPipelineDesc
  vertex_buffer : List Unit
  index_buffer : List Unit
  uniform_buffer : List TheFirstUniformBuffer
  camera_uniform : CameraUniform
  camera_buffer : CameraUniform
  camera_bind_group : BindGroupId
deriving DecidableEq

/-- Constructor `GpuFactory::new`: one-time construction from the driver state, of which
it reads only the surface configuration (device and queue are external
handles). Fills the screen-size uniform buffer with the configuration's
current width/height, builds its own camera fixed at eye (0,1,2) looking at
the origin, pre-fills the camera buffer with that camera's view-projection
matrix, and creates the render pipeline with a hardcoded
`Bgra8UnormSrgb` color target (`GpuFatory.rs` line 158), triangle-list
topology, ccw front face, fill polygon mode, no depth/stencil, no blend. -/
def GpuFactory.new (cfg : SurfaceConfiguration) : GpuFactory :=
  let uniform_data : TheFirstUniformBuffer := ⟨cfg.width, cfg.height⟩
  let camera : Camera :=
    { eye := ⟨0, 1, 2⟩
      target := ⟨0, 0, 0⟩
      up := ⟨0, 1, 0⟩
      aspect := (cfg.width : ℚ) / (cfg.height : ℚ)
      fovy := 45
      znear := 1 / 10
      zfar := 100 }
  let camera_uniform := CameraUniform.new.update_view_proj camera
  let pipeline : RenderPipelineDesc :=
    { layout := [BindGroupId.screenSize, BindGroupId.camera]
      vertex := { entry_point := "display_vs", buffers := [] }
      primitive :=
        { topology := PrimitiveTopologyM.TriangleList
          front_face := FrontFaceM.Ccw
          polygon_mode := PolygonModeM.Fill
          cull_mode := none }
      fragment := some
        { entry_point := "display_fs"
          targets := [some
            { format := TextureFormat.Bgra8UnormSrgb
              blend := none
              write_mask := 15 }] }
      depth_stencil := none }
  { bind_group := [BindGroupId.screenSize]
    pipeline := [pipeline]
    vertex_buffer := []
    index_buffer := []
    uniform_buffer := [uniform_data]
    camera_uniform := camera_uniform
    camera_buffer := camera_uniform
    camera_bind_group := BindGroupId.camera }

/-- Operation `GpuFactory::render`: acquires the next surface frame with a single
`get_current_texture` call — modelled by consuming only the head of the
acquisition stream, so a failure there is final whatever later acquisitions
would have returned — and on failure `unwrap()`s it (no retry, no surface
reconfiguration). On success it records one render pass clearing the color
attachment to black, sets each cached pipeline, binds each cached bind group
at its index, binds the camera bind group at slot 1, draws vertices 0..6 /
instances 0..1, submits the one finished command buffer and presents the
frame. It never writes the camera buffer. -/
def GpuFactory.render (f : GpuFactory) (acquisitions : List (Option Frame)) :
    Except Panic RenderResult :=
  match acquisitions with
  | [] => Except.error Panic.acquireUnwrap
  | none :: _ => Except.error Panic.acquireUnwrap
  | some frame :: _ =>
    let cmds :=
      (List.range f.pipeline.length).map RenderCmd.setPipeline ++
      f.bind_group.enum.map (fun p => RenderCmd.setBindGroup p.1 p.2) ++
      [RenderCmd.setBindGroup 1 f.camera_bind_group,
       RenderCmd.draw 0 6 0 1]
    Except.ok
      { passes := [{ colorLoad := LoadOpM.Clear ColorV.BLACK
                     colorStore := StoreOpM.Store
                     frameId := frame.id
                     cmds := cmds }]
        submittedBuffers := 1
        presented := true }

/-! ## Application driver -/

/-- Structure `GfxState` of `main.rs`: the driver's mutable state. Window, device,
queue and surface are external handles; the state they determine that the
code reads back is the stored surface configuration. -/
structure GfxState where
  surface_config : SurfaceConfiguration
  camera : Camera
  camera_controller : CameraController
  gpu_factory : Option GpuFactory
deriving DecidableEq

/-- Enum `EntryOn` of `main.rs`: the two-state application driver. -/
inductive EntryOn
  | Loading
  | Ready (s : GfxState)
deriving DecidableEq

/-- The window events the handler matches on (`Other` covers the wildcard
arm). -/
inductive WindowEventM
  | Resized (width height : Nat)
  | RedrawRequested
  | KeyboardInput (e : KeyEvent)
  | CloseRequested
  | Other
deriving DecidableEq

/-- Observable side effects of one `window_event` dispatch: `println`
calls made directly by the handler, `surface.configure` calls,
`window.request_redraw` calls, command buffers submitted to the queue,
frames presented, and whether the event loop was asked to exit. -/
structure Effects where
  logs : Nat
  surfaceConfigures : Nat
  redrawRequests : Nat
  gpuSubmits : Nat
  presents : Nat
  exited : Bool
deriving DecidableEq

def Effects.none : Effects := ⟨0, 0, 0, 0, 0, false⟩

/-- Handler `EntryOn::window_event` of `main.rs`. In `Loading` every event falls to
the else-branch: one log line, nothing else. In `Ready`:
* `Resized(w,h)` writes the stored configuration's width and height,
  reconfigures the surface with it, and requests a redraw;
* `RedrawRequested` advances the camera via the controller, recomputes the
  CPU-side camera uniform from the advanced camera (`unwrap()`ing the
  factory option), then calls `render` — which never touches the camera
  buffer;
* `KeyboardInput` forwards to the controller and requests a redraw iff the
  controller reported the key handled;
* `CloseRequested` only logs (the event loop is never exited);
* anything else does nothing. -/
def EntryOn.window_event (st : EntryOn) (event : WindowEventM)
    (acquisitions : List (Option Frame)) : Except Panic (EntryOn × Effects) :=
  match st with
  | EntryOn.Loading =>
    Except.ok (EntryOn.Loading, { Effects.none with logs := 1 })
  | EntryOn.Ready app =>
    match event with
    | WindowEventM.Resized w h =>
      let app' := { app with surface_config :=
        { app.surface_config with width := w, height := h } }
      Except.ok (EntryOn.Ready app',
        { Effects.none with logs := 1, surfaceConfigures := 1, redrawRequests := 1 })
    | WindowEventM.RedrawRequested =>
      let camera' := app.camera_controller.update_camera app.camera
      match app.gpu_factory with
      | none => Except.error Panic.factoryUnwrapNone
      | some f =>
        let f' := { f with camera_uniform := f.camera_uniform.update_view_proj camera' }
        match f'.render acquisitions with
        | Except.error p => Except.error p
        | Except.ok r =>
          Except.ok
            (EntryOn.Ready { app with camera := camera', gpu_factory := some f' },
             { Effects.none with logs := 1,
                                 gpuSubmits := r.submittedBuffers,
                                 presents := if r.presented then 1 else 0 })
    | WindowEventM.KeyboardInput e =>
      let (ctl', handled) := app.camera_controller.process_events e
      Except.ok (EntryOn.Ready { app with camera_controller := ctl' },
        { Effects.none with logs := 1, redrawRequests := if handled then 1 else 0 })
    | WindowEventM.CloseRequested =>
      Except.ok (EntryOn.Ready app, { Effects.none with logs := 1 })
    | WindowEventM.Other =>
      Except.ok (EntryOn.Ready app, Effects.none)

/-- Counts of the one-time resources created while handling the `resumed`
signal. -/
structure InitEffects where
  windowsCreated : Nat
  devicesCreated : Nat
  factoriesCreated : Nat
deriving DecidableEq

def InitEffects.none : InitEffects := ⟨0, 0, 0⟩

def InitEffects.one : InitEffects := ⟨1, 1, 1⟩

/-- Constructor `GfxState::new` of `main.rs`, after adapter/device negotiation: stores
the default surface configuration the platform negotiated for the window
(passed here as a parameter, since negotiation is external), a camera at eye
(0,1,2) looking at the origin with aspect width/height, and a controller
with speed 10; the factory slot starts empty. -/
def GfxState.new (defaultCfg : SurfaceConfiguration) : GfxState :=
  { surface_config := defaultCfg
    camera :=
      { eye := ⟨0, 1, 2⟩
        target := ⟨0, 0, 0⟩
        up := ⟨0, 1, 0⟩
        aspect := (defaultCfg.width : ℚ) / (defaultCfg.height : ℚ)
        fovy := 45
        znear := 1 / 10
        zfar := 100 }
    camera_controller := CameraController.new 10
    gpu_factory := none }

/-- The fully initialized driver state `resumed` produces from `Loading`:
`GfxState::new` followed by installing `GpuFactory::new` built from that
state's surface configuration. -/
def initialGfxState (defaultCfg : SurfaceConfiguration) : GfxState :=
  { GfxState.new defaultCfg with gpu_factory := some (GpuFactory.new defaultCfg) }

/-- Handler `EntryOn::resumed` of `main.rs`: guarded by `if let Self::Loading`, so in
`Ready` it does nothing; in `Loading` it creates the window, blocks on
device/surface negotiation, builds the factory and becomes `Ready`. -/
def EntryOn.resumed (st : EntryOn) (defaultCfg : SurfaceConfiguration) :
    EntryOn × InitEffects :=
  match st with
  | EntryOn.Loading => (EntryOn.Ready (initialGfxState defaultCfg), InitEffects.one)
  | EntryOn.Ready s => (EntryOn.Ready s, InitEffects.none)

/-! ## Helper projections used by the theorems -/

/-- The `Ready` state a successful dispatch ends in, if any. -/
def handlerState (r : Except Panic (EntryOn × Effects)) : Option GfxState :=
  match r with
  | Except.ok (EntryOn.Ready s, _) => some s
  | _ => none

/-- Whether a dispatch result ended in the `Loading` state. -/
def resultIsLoading (r : Except Panic (EntryOn × Effects)) : Bool :=
  match r with
  | Except.ok (EntryOn.Loading, _) => true
  | _ => false

/-- The GPU camera buffer's contents in a driver state, if the factory
exists. -/
def cameraBufferOf (s : GfxState) : Option CameraUniform :=
  s.gpu_factory.map GpuFactory.camera_buffer

/-- The screen-size uniform buffer's contents in a driver state, if the
factory exists. -/
def screenUniformOf (s : GfxState) : Option (List TheFirstUniformBuffer) :=
  s.gpu_factory.map GpuFactory.uniform_buffer

/-- The pixel format of the first color target of the factory's pipeline. -/
def firstTargetFormat (f : GpuFactory) : Option TextureFormat :=
  match f.pipeline with
  | [] => none
  | p :: _ =>
    match p.fragment with
    | none => none
    | some fs =>
      match fs.targets with
      | some t :: _ => some t.format
      | _ => none

/-- The 128×128 BGRA surface configuration the demo window negotiates in
practice (used only to build concrete evaluation points). -/
def demoCfg : SurfaceConfiguration := ⟨128, 128, TextureFormat.Bgra8UnormSrgb⟩

/-! ## Claims -/

/-- C3: every window event dispatched in the `Loading` state is a no-op apart
from logging — the dispatch returns normally (no panic), leaves the driver in
`Loading` with nothing mutated, and its effect record shows no surface
configure, no redraw request, no GPU submission, no present and no exit; in
particular a redraw request in `Loading` submits no GPU work. -/
theorem c3_loading_ignores_all_events (event : WindowEventM)
    (acquisitions : List (Option Frame)) :
    EntryOn.window_event EntryOn.Loading event acquisitions =
      Except.ok (EntryOn.Loading, { Effects.none with logs := 1 }) := rfl

/-- C9: a `CloseRequested` event dispatched in the `Ready` state only logs —
the state is returned unchanged, no GPU work is submitted, nothing is
configured or redrawn, and the event loop is not exited. -/
theorem c9_close_requested_only_logs (s : GfxState)
    (acquisitions : List (Option Frame)) :
    EntryOn.window_event (EntryOn.Ready s) WindowEventM.CloseRequested acquisitions =
      Except.ok (EntryOn.Ready s, { Effects.none with logs := 1 }) := rfl

/-- C6: a `Resized (w, h)` event dispatched in the `Ready` state sets the
stored surface configuration's width and height to exactly `w` and `h`
(leaving the format alone), issues one surface reconfigure and one redraw
request, and submits no GPU work. The updated configuration is part of the
state the dispatch returns, so every subsequent render call observes it. -/
theorem c6_resized_updates_stored_config (s : GfxState) (w h : Nat)
    (acquisitions : List (Option Frame)) :
    EntryOn.window_event (EntryOn.Ready s) (WindowEventM.Resized w h) acquisitions =
      Except.ok
        (EntryOn.Ready
          { s with surface_config := { s.surface_config with width := w, height := h } },
         { Effects.none with logs := 1, surfaceConfigures := 1, redrawRequests := 1 }) := rfl

/-- C5: if acquiring the next surface frame fails, `render` aborts with the
unwrap panic at once: whatever later acquisition attempts would have returned
(`rest` is arbitrary and unused — no retry), the result is the fatal error,
and no `RenderResult` is produced, so nothing is reconfigured, submitted or
presented before the process dies. -/
theorem c5_acquire_failure_is_fatal (f : GpuFactory) (rest : List (Option Frame)) :
    f.render (none :: rest) = Except.error Panic.acquireUnwrap := rfl

/-- C4: for every factory the program can hold at render time (the
construction-time factory, with the CPU-side camera uniform since rewritten
to an arbitrary value `u`), a successful `render` records exactly one render
pass which clears the color target to black, sets the pipeline, binds bind
group #0 (screen size) at slot 0 and the camera bind group at slot 1, and
issues the single draw of vertices 0..6 and instances 0..1 with no
vertex-buffer or index-buffer bindings; it submits exactly one command
buffer and presents the acquired frame. -/
theorem c4_render_records_one_pass (cfg : SurfaceConfiguration) (u : CameraUniform)
    (frame : Frame) (rest : List (Option Frame)) :
    GpuFactory.render { GpuFactory.new cfg with camera_uniform := u } (some frame :: rest) =
      Except.ok
        { passes := [{ colorLoad := LoadOpM.Clear ColorV.BLACK
                       colorStore := StoreOpM.Store
                       frameId := frame.id
                       cmds := [RenderCmd.setPipeline 0,
                                RenderCmd.setBindGroup 0 BindGroupId.screenSize,
                                RenderCmd.setBindGroup 1 BindGroupId.camera,
                                RenderCmd.draw 0 6 0 1] }]
          submittedBuffers := 1
          presented := true } := rfl

/-- C7: the screen-size uniform buffer is filled exactly once, at factory
construction, with the surface configuration's width and height at that
moment; and handling a `Resized` event leaves the factory — in particular
the screen-size uniform buffer's contents — exactly as it was (the resize
arm never re-uploads it). -/
theorem c7_screen_uniform_never_reuploaded :
    (∀ cfg : SurfaceConfiguration,
      (GpuFactory.new cfg).uniform_buffer = [⟨cfg.width, cfg.height⟩]) ∧
    (∀ (s : GfxState) (w h : Nat) (acquisitions : List (Option Frame)),
      (handlerState
        (EntryOn.window_event (EntryOn.Ready s) (WindowEventM.Resized w h) acquisitions)).map
          screenUniformOf = some (screenUniformOf s)) :=
  ⟨fun _ => rfl, fun _ _ _ _ => rfl⟩

/-- C10: initialization runs at most once — `resumed` in `Ready` is a no-op
creating no second window, device or factory; `resumed` in `Loading` builds
the fully initialized state (one window, one device, one factory) and
becomes `Ready`; and no window-event dispatch ever takes a `Ready` driver
back to `Loading`. -/
theorem c10_loading_to_ready_only :
    (∀ (s : GfxState) (cfg : SurfaceConfiguration),
      EntryOn.resumed (EntryOn.Ready s) cfg = (EntryOn.Ready s, InitEffects.none)) ∧
    (∀ cfg : SurfaceConfiguration,
      EntryOn.resumed EntryOn.Loading cfg =
        (EntryOn.Ready (initialGfxState cfg), InitEffects.one)) ∧
    (∀ (s : GfxState) (event : WindowEventM) (acquisitions : List (Option Frame)),
      resultIsLoading (EntryOn.window_event (EntryOn.Ready s) event acquisitions) = false) := by
  refine ⟨fun _ _ => rfl, fun _ => rfl, fun s event acquisitions => ?_⟩
  cases event with
  | Resized w h => rfl
  | RedrawRequested =>
    rcases hf : s.gpu_factory with _ | f
    · simp [EntryOn.window_event, resultIsLoading, hf]
    · rcases acquisitions with _ | ⟨_ | fr, rest⟩ <;>
        simp [EntryOn.window_event, resultIsLoading, hf, GpuFactory.render]
  | KeyboardInput e => rfl
  | CloseRequested => rfl
  | Other => rfl

/-- C1 (amended): a `RedrawRequested` event dispatched in `Ready` with an
initialized factory advances the camera via the controller, recomputes the
CPU-side camera uniform's view-projection matrix from the advanced camera,
and invokes the factory's render operation (one command-buffer submission,
one present) — but it never re-uploads the camera uniform to the GPU camera
buffer: in the returned state the factory's `camera_buffer` field is exactly
the `f.camera_buffer` it started with, so the GPU buffer keeps the matrix
written at construction rather than tracking the current camera. -/
theorem c1_redraw_never_reuploads_camera_buffer (cfg : SurfaceConfiguration)
    (cam : Camera) (ctl : CameraController) (f : GpuFactory) (frame : Frame)
    (rest : List (Option Frame)) :
    EntryOn.window_event (EntryOn.Ready ⟨cfg, cam, ctl, some f⟩)
        WindowEventM.RedrawRequested (some frame :: rest) =
      Except.ok
        (EntryOn.Ready
          ⟨cfg, ctl.update_camera cam, ctl,
           some { f with camera_uniform :=
             f.camera_uniform.update_view_proj (ctl.update_camera cam) }⟩,
         { Effects.none with logs := 1, gpuSubmits := 1, presents := 1 }) := rfl

/-- A `Ready` driver state reachable after some keyboard input and camera
motion: the initialized demo state with the camera moved to eye (0,0,30) and
the forward key held down. Used to refute C1 as stated. -/
def c1cexState : GfxState :=
  { initialGfxState demoCfg with
      camera := { (initialGfxState demoCfg).camera with eye := ⟨0, 0, 30⟩ }
      camera_controller := { CameraController.new 10 with is_forward_pressed := true } }

def c1cexRun : Except Panic (EntryOn × Effects) :=
  EntryOn.window_event (EntryOn.Ready c1cexState) WindowEventM.RedrawRequested [some ⟨0⟩]

set_option maxRecDepth 40000 in
/-- C1 counterexample: dispatching `RedrawRequested` in the concrete `Ready`
state `c1cexState` (forward key held, eye at (0,0,30)) returns successfully,
but the GPU camera buffer's contents do **not** equal the view-projection
matrix of the resulting camera state: the controller moved the eye to
(0,0,20), while the buffer still holds the matrix of the construction-time
camera at eye (0,1,2). -/
theorem c1_buffer_stale_counterexample :
    (handlerState c1cexRun).isSome = true ∧
    (handlerState c1cexRun).map cameraBufferOf ≠
      (handlerState c1cexRun).map
        (fun s => some ⟨s.camera.compute_view_projection⟩) := by
  constructor
  · with_unfolding_all decide
  · with_unfolding_all decide

/-- C2 (amended): the render pipeline created by the factory's one-time
construction has, for every surface configuration, triangle-list topology,
counter-clockwise front face, filled polygons, no depth/stencil, and a
single color target with no blending whose pixel format is the hardcoded
`Bgra8UnormSrgb` — it therefore matches the negotiated surface
configuration's format only when that format is `Bgra8UnormSrgb`, not for
every configuration. -/
theorem c2_pipeline_fixed_state (cfg : SurfaceConfiguration) :
    (GpuFactory.new cfg).pipeline =
      [{ layout := [BindGroupId.screenSize, BindGroupId.camera]
         vertex := { entry_point := "display_vs", buffers := [] }
         primitive :=
           { topology := PrimitiveTopologyM.TriangleList
             front_face := FrontFaceM.Ccw
             polygon_mode := PolygonModeM.Fill
             cull_mode := none }
         fragment := some
           { entry_point := "display_fs"
             targets := [some
               { format := TextureFormat.Bgra8UnormSrgb
                 blend := none
                 write_mask := 15 }] }
         depth_stencil := none }] := rfl

/-- C2 counterexample: constructing the factory with a surface configuration
whose negotiated format is `Rgba8Unorm` still yields a pipeline whose single
color target has format `Bgra8UnormSrgb`, so the target's format does not
equal the surface configuration's format. -/
theorem c2_hardcoded_format_counterexample :
    firstTargetFormat (GpuFactory.new ⟨128, 128, TextureFormat.Rgba8Unorm⟩) =
      some TextureFormat.Bgra8UnormSrgb ∧
    firstTargetFormat (GpuFactory.new ⟨128, 128, TextureFormat.Rgba8Unorm⟩) ≠
      some (SurfaceConfiguration.mk 128 128 TextureFormat.Rgba8Unorm).format := by
  constructor
  · rfl
  · decide

/-- The movement flag of the controller corresponding to a key, when the key
is one of the four recognized movement keys. -/
def movementFlag (c : CameraController) (k : PhysicalKeyCode) : Option Bool :=
  match k with
  | PhysicalKeyCode.KeyW => some c.is_forward_pressed
  | PhysicalKeyCode.KeyA => some c.is_left_pressed
  | PhysicalKeyCode.KeyS => some c.is_backward_pressed
  | PhysicalKeyCode.KeyD => some c.is_right_pressed
  | PhysicalKeyCode.Other _ => none

/-- C8 (amended): for every controller state and key, a press of a
recognized key sets the corresponding movement flag `true` and reports
handled, a release sets it `false` and reports handled, and a press followed
by the matching release leaves the flag `false` — which restores the
pre-press value exactly when the flag was not already set; an unrecognized
key leaves the controller unchanged and reports unhandled. -/
theorem c8_press_release_semantics (c : CameraController) (k : PhysicalKeyCode) :
    (movementFlag (c.process_events ⟨k, ElementState.Pressed⟩).1 k =
      (movementFlag c k).map (fun _ => true)) ∧
    ((c.process_events ⟨k, ElementState.Pressed⟩).2 = (movementFlag c k).isSome) ∧
    (movementFlag (c.process_events ⟨k, ElementState.Released⟩).1 k =
      (movementFlag c k).map (fun _ => false)) ∧
    ((c.process_events ⟨k, ElementState.Released⟩).2 = (movementFlag c k).isSome) ∧
    (movementFlag
        ((c.process_events ⟨k, ElementState.Pressed⟩).1.process_events
          ⟨k, ElementState.Released⟩).1 k =
      (movementFlag c k).map (fun _ => false)) ∧
    (∀ (code : Nat) (st : ElementState),
      c.process_events ⟨PhysicalKeyCode.Other code, st⟩ = (c, false)) := by
  refine ⟨?_, ?_, ?_, ?_, ?_, ?_⟩ <;>
    cases k <;> simp [CameraController.process_events, movementFlag]

/-- C8 counterexample: starting from a controller whose forward flag is
already `true`, pressing and then releasing W leaves the flag `false`, so
the press/release pair does not restore the flag to its pre-press value. -/
theorem c8_press_release_not_restoring :
    (({ CameraController.new 10 with is_forward_pressed := true }.process_events
          ⟨PhysicalKeyCode.KeyW, ElementState.Pressed⟩).1.process_events
        ⟨PhysicalKeyCode.KeyW, ElementState.Released⟩).1.is_forward_pressed = false ∧
    ({ CameraController.new 10 with is_forward_pressed := true } :
        CameraController).is_forward_pressed = true := by
  constructor
  · rfl
  · rfl
